import Mathlib

/-!
Verification of the UserInfo retrieval core of an OpenID Connect client
(source files: src/http_utils.rs and src/user_info.rs).

Shallow embedding conventions:
* Rust `String`/header values become Lean `String`; byte buffers become `List Nat`.
* `http_types` carrier types (`Response`, `StatusCode`, `Body`, header values)
  are repository modules that are not part of the given sources; they are
  modelled minimally from the spec section on external interfaces: a response
  has a status, headers and a body, and header lookup yields the list of
  values stored under a name.
* External collaborators (serde_json deserialization, the signed-JWT
  verification path through src/verification.rs) are abstracted as function
  parameters, so theorems quantify over every possible behaviour of them.
* Fallible Rust code returns `Except`.
-/

namespace OpenIDConnect

/-! ### Constants from src/http_utils.rs -/

def MIME_TYPE_JSON : String := "application/json"

def MIME_TYPE_JWKS : String := "application/jwk-set+json"

def MIME_TYPE_JWT : String := "application/jwt"

def BEARER : String := "Bearer"

/-- Header names used by the code (http_types exposes them as constants;
header names are matched case-insensitively by the transport, so the
canonical lowercase form is used here). -/
def ACCEPT : String := "accept"

def AUTHORIZATION : String := "authorization"

def CONTENT_TYPE : String := "content-type"

/-! ### http_types carrier types (modelled) -/

/-- Status codes, as their numeric value. -/
abbrev StatusCode := Nat

/-- `StatusCode::Ok`, the 200 OK status the code compares against. -/
def StatusCode.Ok : StatusCode := 200

/-- A response body: the raw bytes plus whether reading it succeeds
(`body_bytes` in http_types is fallible I/O). -/
structure Body where
  bytes : List Nat
  readOk : Bool
deriving DecidableEq, Repr

/-- `Response::body_bytes`: reading the body either yields the bytes or an
I/O error. -/
def Body.body_bytes (b : Body) : Except String (List Nat) :=
  if b.readOk then .ok b.bytes else .error "io error"

/-- An HTTP response as the code consumes it: status, the values stored
under the Content-Type header name (`none` when the header is absent; a
present header carries at least one value), and the body. -/
structure Response where
  status : StatusCode
  contentType : Option (List String)
  body : Body
deriving DecidableEq, Repr

/-- An outgoing HTTP request: method, url, headers in insertion order, body. -/
structure Request where
  method : String
  url : String
  headers : List (String × String)
  body : List Nat
deriving DecidableEq, Repr

/-- `oauth2::AccessToken`: a wrapper around the secret string. -/
structure AccessToken where
  secret : String
deriving DecidableEq, Repr

/-! ### src/http_utils.rs -/

/-- Rust `str::to_lowercase` (per-character lowercasing). -/
def to_lowercase (s : String) : String :=
  String.mk (s.data.map Char.toLower)

/-- The type/subtype essence of a Content-Type value: the part of the string
before the first `;` (before any parameters such as charset), exactly the
slice `ct[..ct.find(self := ct) ...]` taken by the source. -/
def essence_of (ct : String) : String :=
  String.mk (ct.data.takeWhile (fun c => c != ';'))

/-- `content_type_has_essence` from src/http_utils.rs lines 15-19: compare the
lowercased essence of the header value with the lowercased expected essence. -/
def content_type_has_essence (content_type : String) (expected_essence : String) : Bool :=
  to_lowercase (essence_of content_type) == to_lowercase expected_essence

/-- `check_content_type` from src/http_utils.rs lines 21-39: absent header is
accepted; a present header is accepted when any of its values has the
expected essence, otherwise an error message naming the header and the
expected type is returned. -/
def check_content_type (response : Response) (expected_content_type : String) :
    Except String Unit :=
  match response.contentType with
  | none => .ok ()
  | some values =>
    if values.any (fun hv => content_type_has_essence hv expected_content_type) then
      .ok ()
    else
      .error ("Unexpected response Content-Type, should be " ++ expected_content_type)

/-- `auth_bearer` from src/http_utils.rs lines 41-47: builds the
Authorization header pair. The header-value validity check performed by
http_types (whose module is not among the given sources) is abstracted away;
the value is the formatted string itself. -/
def auth_bearer (access_token : AccessToken) : String × String :=
  (AUTHORIZATION, BEARER ++ " " ++ access_token.secret)

/-! ### Claims data model from src/user_info.rs -/

abbrev SubjectIdentifier := String

abbrev Audience := String

abbrev IssuerUrl := String

/-- `StandardClaims`: only the `sub` field participates in any control flow of
the given sources; the many optional end-user fields are orthogonal payload
and are not modelled. -/
structure StandardClaims where
  sub : SubjectIdentifier
deriving DecidableEq, Repr

/-- `UserInfoClaimsImpl` from src/user_info.rs lines 298-320 (the flattened
additional claims are orthogonal payload, carried by serde, and are not
modelled). -/
structure UserInfoClaimsImpl where
  issuer : Option IssuerUrl
  audiences : Option (List Audience)
  standard_claims : StandardClaims
deriving DecidableEq, Repr

/-- `UserInfoClaims`, the public newtype around `UserInfoClaimsImpl`. -/
structure UserInfoClaims where
  impl : UserInfoClaimsImpl
deriving DecidableEq, Repr

/-- `ClaimsVerificationError` variants reachable from the given sources. -/
inductive ClaimsVerificationError where
  | NoSignature : ClaimsVerificationError
  | InvalidSubject (msg : String) : ClaimsVerificationError
  | OtherVerification (msg : String) : ClaimsVerificationError
deriving DecidableEq, Repr

/-- `UserInfoError` from src/user_info.rs lines 423-455. `Parse` carries the
serde error message; `Response` carries status, raw body and a diagnostic
message; `Request` carries the transport error, abstracted to a string. -/
inductive UserInfoError where
  | ClaimsVerification (e : ClaimsVerificationError) : UserInfoError
  | Parse (msg : String) : UserInfoError
  | Request (msg : String) : UserInfoError
  | Response (status : StatusCode) (body : Body) (msg : String) : UserInfoError
  | Other (msg : String) : UserInfoError
deriving DecidableEq, Repr

/-- Modelled from the spec: `UserInfoVerifier` (src/verification.rs is not
among the given sources). Per the spec, the UserInfo claims policy carries an
optional expected subject supplied by the caller plus independently
toggleable issuer and audience checks. -/
structure UserInfoVerifier where
  expected_subject : Option SubjectIdentifier
  iss_required : Bool
  aud_required : Bool
deriving DecidableEq, Repr

/-- Modelled from the spec: toggling the issuer check of the policy
(independently of the other fields). -/
def UserInfoVerifier.require_issuer_match (v : UserInfoVerifier) (iss_required : Bool) :
    UserInfoVerifier :=
  { v with iss_required := iss_required }

/-- Modelled from the spec: toggling the audience check of the policy
(independently of the other fields). -/
def UserInfoVerifier.require_audience_match (v : UserInfoVerifier) (aud_required : Bool) :
    UserInfoVerifier :=
  { v with aud_required := aud_required }

/-- A serde_json deserializer for `UserInfoClaimsImpl`: external collaborator,
abstracted; an `Except.error` models a deserialization failure with its
message. -/
abbrev ClaimsParser := List Nat → Except String UserInfoClaimsImpl

/-- `UserInfoClaims::from_json` from src/user_info.rs lines 202-229:
deserialize, then, when an expected subject is supplied, require the `sub`
claim to equal it; on mismatch report `InvalidSubject` with a message naming
both subjects. -/
def UserInfoClaims.from_json (parse : ClaimsParser) (user_info_json : List Nat)
    (expected_subject : Option SubjectIdentifier) : Except UserInfoError UserInfoClaims :=
  match parse user_info_json with
  | .error e => .error (.Parse e)
  | .ok user_info =>
    if expected_subject.all (fun s => user_info.standard_claims.sub == s) then
      .ok ⟨user_info⟩
    else
      .error (.ClaimsVerification (.InvalidSubject
        ("expected " ++ expected_subject.getD "" ++ " (found " ++
          user_info.standard_claims.sub ++ ")")))

/-! ### UserInfoRequest from src/user_info.rs -/

/-- `UserInfoRequest`: the fields of src/user_info.rs lines 32-44. -/
structure UserInfoRequest where
  url : String
  access_token : AccessToken
  require_signed_response : Bool
  signed_response_verifier : UserInfoVerifier
deriving DecidableEq, Repr

/-- Builder from src/user_info.rs lines 153-158: delegates to the verifier
(the source doc comment states this option has no effect on unsigned JSON
responses). -/
def UserInfoRequest.require_issuer_match (r : UserInfoRequest) (iss_required : Bool) :
    UserInfoRequest :=
  { r with signed_response_verifier :=
      r.signed_response_verifier.require_issuer_match iss_required }

/-- Builder from src/user_info.rs lines 166-171: delegates to the verifier. -/
def UserInfoRequest.require_audience_match (r : UserInfoRequest) (aud_required : Bool) :
    UserInfoRequest :=
  { r with signed_response_verifier :=
      r.signed_response_verifier.require_audience_match aud_required }

/-- `prepare_request` from src/user_info.rs lines 76-84: GET request to the
UserInfo url with Accept and Authorization headers and an empty body. -/
def UserInfoRequest.prepare_request (r : UserInfoRequest) : Request :=
  let auth := auth_bearer r.access_token
  { method := "GET"
    url := r.url
    headers := [(ACCEPT, MIME_TYPE_JSON), (auth.1, auth.2)]
    body := [] }

/-- src/user_info.rs lines 103-107: the Content-Type value the dispatch is
performed on — the first stored value when the header is present, otherwise
`application/json` substituted as the default. -/
def response_content_type (http_response : Response) : String :=
  match http_response.contentType with
  | some (v :: _) => v
  | _ => MIME_TYPE_JSON

/-- The signed-JWT response path (src/user_info.rs lines 120-130): reads the
body as a string, deserializes a JWT and verifies it through
src/verification.rs, which is not among the given sources; abstracted as an
arbitrary function of the body and the verifier. -/
abbrev JwtPath := Body → UserInfoVerifier → Except UserInfoError UserInfoClaims

/-- `user_info_response` from src/user_info.rs lines 86-137: reject a status
other than Ok with a `Response` error carrying status, body and message;
dispatch on the Content-Type essence; on the JSON shape reject with
`NoSignature` when a signed response is required, else read the body and call
`from_json` with the expected subject of the verifier; on the JWT shape run
the signed path; otherwise reject with a `Response` error carrying status,
body and message. -/
def UserInfoRequest.user_info_response (parse : ClaimsParser) (jwt_path : JwtPath)
    (self : UserInfoRequest) (http_response : Response) :
    Except UserInfoError UserInfoClaims :=
  if http_response.status ≠ StatusCode.Ok then
    .error (.Response http_response.status http_response.body
      "unexpected HTTP status code")
  else
    let content_type := response_content_type http_response
    if content_type_has_essence content_type MIME_TYPE_JSON then
      if self.require_signed_response then
        .error (.ClaimsVerification .NoSignature)
      else
        match http_response.body.body_bytes with
        | .error _ => .error (.Other "Body problems")
        | .ok body =>
          UserInfoClaims.from_json parse body self.signed_response_verifier.expected_subject
    else if content_type_has_essence content_type MIME_TYPE_JWT then
      jwt_path http_response.body self.signed_response_verifier
    else
      .error (.Response http_response.status http_response.body
        ("unexpected response Content-Type: " ++ content_type))

/-! ### Audience claim serialization (for the aud claim shape) -/

/-- A minimal JSON value type, enough to state the shape of the aud claim. -/
inductive Json where
  | str (s : String) : Json
  | arr (xs : List Json) : Json
  | other : Json

/-- Serialization of the `aud` field of `UserInfoClaimsImpl`
(src/user_info.rs lines 306-313): the field is skipped when `none`; a present
`Vec<Audience>` serializes as a JSON array of strings, also when it holds a
single audience. -/
def serialize_aud (audiences : Option (List Audience)) : Option Json :=
  match audiences with
  | none => none
  | some xs => some (.arr (xs.map .str))

/-- Extracting the strings of a JSON array, failing on any non-string entry. -/
def aud_entries : List Json → Option (List Audience)
  | [] => some []
  | .str s :: rest =>
    match aud_entries rest with
    | some l => some (s :: l)
    | none => none
  | _ => none

/-- Modelled from the spec: `deserialize_string_or_vec_opt`
(crate::types::helpers, not among the given sources) — deserialization of the
aud claim accepts either a single string or an array of strings. -/
def deserialize_string_or_vec_opt (j : Json) : Except String (Option (List Audience)) :=
  match j with
  | .str s => .ok (some [s])
  | .arr xs =>
    match aud_entries xs with
    | some l => .ok (some l)
    | none => .error "invalid aud entry"
  | .other => .error "invalid aud"

/-- Two sequential calls of `from_json` on the same inputs: there is no state
to thread between them, mirroring that the Rust function takes only shared
borrows and touches no global state. -/
def verify_twice (parse : ClaimsParser) (bytes : List Nat)
    (expected : Option SubjectIdentifier) :
    Except UserInfoError UserInfoClaims × Except UserInfoError UserInfoClaims :=
  (UserInfoClaims.from_json parse bytes expected,
    UserInfoClaims.from_json parse bytes expected)

/-! ### Helper lemmas -/

theorem takeWhile_bne_append (e p : List Char) (h : ∀ c ∈ e, c ≠ ';') :
    (e ++ ';' :: p).takeWhile (fun c => c != ';') = e := by
  induction e with
  | nil => simp
  | cons a as ih =>
    have ha : (a != ';') = true := by
      simpa using h a (List.mem_cons_self a as)
    simp [List.takeWhile_cons, ha, ih (fun c hc => h c (List.mem_cons_of_mem a hc))]

theorem takeWhile_bne_of_no_semi (e : List Char) (h : ∀ c ∈ e, c ≠ ';') :
    e.takeWhile (fun c => c != ';') = e := by
  induction e with
  | nil => simp
  | cons a as ih =>
    have ha : (a != ';') = true := by
      simpa using h a (List.mem_cons_self a as)
    simp [List.takeWhile_cons, ha, ih (fun c hc => h c (List.mem_cons_of_mem a hc))]

theorem string_data_append (s t : String) : (s ++ t).data = s.data ++ t.data := by
  cases s; cases t; rfl

theorem aud_entries_map_str (l : List String) :
    aud_entries (l.map Json.str) = some l := by
  induction l with
  | nil => rfl
  | cons a as ih => simp [aud_entries, ih]

/-! ### Claim theorems -/

/-- C3: for every Content-Type header value and expected essence,
`content_type_has_essence` returns true exactly when the type/subtype essence
of the value (the part before any parameters) equals the expected essence
case-insensitively, and parameters appended after the essence never affect
the match. -/
theorem c3_content_type_essence_match (ct expected : String) :
    (content_type_has_essence ct expected = true ↔
      to_lowercase (essence_of ct) = to_lowercase expected) ∧
    (∀ e p : List Char, (∀ c ∈ e, c ≠ ';') →
      content_type_has_essence (String.mk (e ++ ';' :: p)) expected =
        content_type_has_essence (String.mk e) expected) := by
  constructor
  · simp [content_type_has_essence]
  · intro e p h
    simp [content_type_has_essence, essence_of, takeWhile_bne_append e p h,
      takeWhile_bne_of_no_semi e h]

/-- Witness for C3 at a concrete header value with a charset parameter. -/
theorem c3_content_type_essence_match_witness :
    content_type_has_essence
        (String.mk ("application/json".data ++ ';' :: " charset=utf-8".data))
        "APPLICATION/Json" =
      content_type_has_essence (String.mk "application/json".data) "APPLICATION/Json" :=
  (c3_content_type_essence_match "" "APPLICATION/Json").2
    "application/json".data " charset=utf-8".data (by decide)

/-- C4: every request produced by `prepare_request` carries the Authorization
header whose value is the literal string Bearer, a single space, then the
secret of the access token. -/
theorem c4_prepare_request_bearer_header (r : UserInfoRequest) :
    (AUTHORIZATION, BEARER ++ " " ++ r.access_token.secret) ∈ r.prepare_request.headers := by
  simp [UserInfoRequest.prepare_request, auth_bearer]

/-- C5: for every JSON byte sequence that parses to UserInfo claims,
`from_json` with an expected subject returns the parsed claims exactly when
the sub claim equals the expected subject, otherwise a ClaimsVerification
error with the specific InvalidSubject sub-kind; with no expected subject the
parsed claims are returned without any subject check. -/
theorem c5_from_json_subject_check (parse : ClaimsParser) (bytes : List Nat)
    (u : UserInfoClaimsImpl) (expected : SubjectIdentifier)
    (hp : parse bytes = .ok u) :
    (UserInfoClaims.from_json parse bytes (some expected) = .ok ⟨u⟩ ↔
      u.standard_claims.sub = expected) ∧
    (u.standard_claims.sub ≠ expected →
      UserInfoClaims.from_json parse bytes (some expected) =
        .error (.ClaimsVerification (.InvalidSubject
          ("expected " ++ expected ++ " (found " ++ u.standard_claims.sub ++ ")")))) ∧
    UserInfoClaims.from_json parse bytes none = .ok ⟨u⟩ := by
  refine ⟨?_, ?_, ?_⟩
  · by_cases h : u.standard_claims.sub = expected <;>
      simp [UserInfoClaims.from_json, hp, Option.all, h]
  · intro h
    simp [UserInfoClaims.from_json, hp, Option.all, h]
  · simp [UserInfoClaims.from_json, hp, Option.all]

/-- Witness for C5 at a concrete parser, byte input and subject. -/
theorem c5_from_json_subject_check_witness :
    (UserInfoClaims.from_json (fun _ => .ok ⟨none, none, ⟨"alice"⟩⟩) [123]
        (some "alice") = .ok ⟨⟨none, none, ⟨"alice"⟩⟩⟩ ↔
      (⟨none, none, ⟨"alice"⟩⟩ : UserInfoClaimsImpl).standard_claims.sub = "alice") ∧
    ((⟨none, none, ⟨"alice"⟩⟩ : UserInfoClaimsImpl).standard_claims.sub ≠ "alice" →
      UserInfoClaims.from_json (fun _ => .ok ⟨none, none, ⟨"alice"⟩⟩) [123]
        (some "alice") =
        .error (.ClaimsVerification (.InvalidSubject
          ("expected " ++ "alice" ++ " (found " ++
            (⟨none, none, ⟨"alice"⟩⟩ : UserInfoClaimsImpl).standard_claims.sub ++ ")")))) ∧
    UserInfoClaims.from_json (fun _ => .ok ⟨none, none, ⟨"alice"⟩⟩) [123] none =
      .ok ⟨⟨none, none, ⟨"alice"⟩⟩⟩ :=
  c5_from_json_subject_check (fun _ => .ok ⟨none, none, ⟨"alice"⟩⟩) [123]
    ⟨none, none, ⟨"alice"⟩⟩ "alice" rfl

/-- C7: UserInfo claims verification is deterministic and idempotent:
`from_json` on equal byte inputs and equal expected subjects yields equal
results, and the two results of calling it twice in sequence coincide. -/
theorem c7_from_json_deterministic (parse : ClaimsParser) (b1 b2 : List Nat)
    (e1 e2 : Option SubjectIdentifier) (hb : b1 = b2) (he : e1 = e2) :
    UserInfoClaims.from_json parse b1 e1 = UserInfoClaims.from_json parse b2 e2 ∧
    (verify_twice parse b1 e1).1 = (verify_twice parse b1 e1).2 := by
  subst hb
  subst he
  exact ⟨rfl, rfl⟩

/-- Witness for C7 at a concrete parser and input. -/
theorem c7_from_json_deterministic_witness :
    UserInfoClaims.from_json (fun _ => .error "parse failure") [1, 2] (some "s") =
      UserInfoClaims.from_json (fun _ => .error "parse failure") [1, 2] (some "s") ∧
    (verify_twice (fun _ => .error "parse failure") [1, 2] (some "s")).1 =
      (verify_twice (fun _ => .error "parse failure") [1, 2] (some "s")).2 :=
  c7_from_json_deterministic (fun _ => .error "parse failure") [1, 2] [1, 2]
    (some "s") (some "s") rfl rfl

/-- C1: for every response with the Ok status whose Content-Type has essence
application/json, when the policy requires a signed response,
`user_info_response` returns ClaimsVerification NoSignature, and the result
does not depend on the response body (the body is never read or parsed). -/
theorem c1_unsigned_json_rejected_when_signature_required (parse : ClaimsParser)
    (jwt_path : JwtPath) (req : UserInfoRequest) (resp : Response)
    (v : String) (vs : List String)
    (hstatus : resp.status = StatusCode.Ok)
    (hct : resp.contentType = some (v :: vs))
    (hjson : content_type_has_essence v MIME_TYPE_JSON = true)
    (hsig : req.require_signed_response = true) :
    UserInfoRequest.user_info_response parse jwt_path req resp =
      .error (.ClaimsVerification .NoSignature) ∧
    ∀ b : Body,
      UserInfoRequest.user_info_response parse jwt_path req { resp with body := b } =
        UserInfoRequest.user_info_response parse jwt_path req resp := by
  have hmain : UserInfoRequest.user_info_response parse jwt_path req resp =
      .error (.ClaimsVerification .NoSignature) := by
    simp [UserInfoRequest.user_info_response, response_content_type, hstatus, hct,
      hjson, hsig]
  refine ⟨hmain, fun b => ?_⟩
  rw [hmain]
  simp [UserInfoRequest.user_info_response, response_content_type, hstatus, hct,
    hjson, hsig]

/-- Witness for C1 at a concrete request and response. -/
theorem c1_unsigned_json_rejected_when_signature_required_witness :
    UserInfoRequest.user_info_response (fun _ => .error "p") (fun _ _ => .error (.Other "j"))
        ⟨"url", ⟨"tok"⟩, true, ⟨some "alice", false, false⟩⟩
        ⟨200, some ["application/json"], ⟨[1], true⟩⟩ =
      .error (.ClaimsVerification .NoSignature) ∧
    ∀ b : Body,
      UserInfoRequest.user_info_response (fun _ => .error "p") (fun _ _ => .error (.Other "j"))
          ⟨"url", ⟨"tok"⟩, true, ⟨some "alice", false, false⟩⟩
          { (⟨200, some ["application/json"], ⟨[1], true⟩⟩ : Response) with body := b } =
        UserInfoRequest.user_info_response (fun _ => .error "p") (fun _ _ => .error (.Other "j"))
          ⟨"url", ⟨"tok"⟩, true, ⟨some "alice", false, false⟩⟩
          ⟨200, some ["application/json"], ⟨[1], true⟩⟩ :=
  c1_unsigned_json_rejected_when_signature_required (fun _ => .error "p")
    (fun _ _ => .error (.Other "j")) ⟨"url", ⟨"tok"⟩, true, ⟨some "alice", false, false⟩⟩
    ⟨200, some ["application/json"], ⟨[1], true⟩⟩ "application/json" [] rfl rfl
    (by decide) rfl

/-- C2: for every response whose status is not Ok, or whose Content-Type
essence is neither application/json nor application/jwt,
`user_info_response` returns a Response error carrying the status, the raw
body, and a nonempty diagnostic message. -/
theorem c2_response_error_preserves_status_body (parse : ClaimsParser)
    (jwt_path : JwtPath) (req : UserInfoRequest) (resp : Response)
    (h : resp.status ≠ StatusCode.Ok ∨
      ∃ v vs, resp.contentType = some (v :: vs) ∧
        content_type_has_essence v MIME_TYPE_JSON = false ∧
        content_type_has_essence v MIME_TYPE_JWT = false) :
    ∃ msg, UserInfoRequest.user_info_response parse jwt_path req resp =
      .error (.Response resp.status resp.body msg) ∧ msg ≠ "" := by
  by_cases hs : resp.status = StatusCode.Ok
  · rcases h with h | ⟨v, vs, hct, hj, hw⟩
    · exact absurd hs h
    · have hrct : response_content_type resp = v := by
        simp [response_content_type, hct]
      refine ⟨"unexpected response Content-Type: " ++ v, ?_, ?_⟩
      · simp [UserInfoRequest.user_info_response, hs, hrct, hj, hw]
      · intro hc
        have hd := congrArg String.data hc
        rw [string_data_append] at hd
        exact absurd (List.append_eq_nil.mp hd).1 (by decide)
  · exact ⟨"unexpected HTTP status code",
      by simp [UserInfoRequest.user_info_response, hs], by decide⟩

/-- Witness for C2 at a concrete response with a non-Ok status. -/
theorem c2_response_error_preserves_status_body_witness :
    ∃ msg, UserInfoRequest.user_info_response (fun _ => .error "p")
        (fun _ _ => .error (.Other "j"))
        ⟨"url", ⟨"tok"⟩, false, ⟨none, false, false⟩⟩
        ⟨404, some ["application/json"], ⟨[7], true⟩⟩ =
      .error (.Response (Response.status ⟨404, some ["application/json"], ⟨[7], true⟩⟩)
        (Response.body ⟨404, some ["application/json"], ⟨[7], true⟩⟩) msg) ∧ msg ≠ "" :=
  c2_response_error_preserves_status_body (fun _ => .error "p")
    (fun _ _ => .error (.Other "j")) ⟨"url", ⟨"tok"⟩, false, ⟨none, false, false⟩⟩
    ⟨404, some ["application/json"], ⟨[7], true⟩⟩ (Or.inl (by decide))

/-- C8: a response without a Content-Type header is never rejected for its
content type: `user_info_response` behaves exactly as if the header were
application/json (the substituted default, sent down the unsigned JSON path),
and `check_content_type` accepts a header-less response for every expected
content type. -/
theorem c8_absent_content_type_defaults_to_json (parse : ClaimsParser)
    (jwt_path : JwtPath) (req : UserInfoRequest) (resp : Response)
    (hct : resp.contentType = none) :
    UserInfoRequest.user_info_response parse jwt_path req resp =
      UserInfoRequest.user_info_response parse jwt_path req
        { resp with contentType := some [MIME_TYPE_JSON] } ∧
    response_content_type resp = MIME_TYPE_JSON ∧
    ∀ expected, check_content_type resp expected = .ok () := by
  refine ⟨?_, ?_, ?_⟩
  · simp [UserInfoRequest.user_info_response, response_content_type, hct]
  · simp [response_content_type, hct]
  · intro expected
    simp [check_content_type, hct]

/-- Witness for C8 at a concrete header-less response. -/
theorem c8_absent_content_type_defaults_to_json_witness :
    UserInfoRequest.user_info_response (fun _ => .error "p") (fun _ _ => .error (.Other "j"))
        ⟨"url", ⟨"tok"⟩, false, ⟨none, false, false⟩⟩ ⟨200, none, ⟨[2], true⟩⟩ =
      UserInfoRequest.user_info_response (fun _ => .error "p") (fun _ _ => .error (.Other "j"))
        ⟨"url", ⟨"tok"⟩, false, ⟨none, false, false⟩⟩
        { (⟨200, none, ⟨[2], true⟩⟩ : Response) with contentType := some [MIME_TYPE_JSON] } ∧
    response_content_type ⟨200, none, ⟨[2], true⟩⟩ = MIME_TYPE_JSON ∧
    ∀ expected, check_content_type ⟨200, none, ⟨[2], true⟩⟩ expected = .ok () :=
  c8_absent_content_type_defaults_to_json (fun _ => .error "p")
    (fun _ _ => .error (.Other "j")) ⟨"url", ⟨"tok"⟩, false, ⟨none, false, false⟩⟩
    ⟨200, none, ⟨[2], true⟩⟩ rfl

/-- C10: on responses whose dispatched Content-Type has essence
application/json, the require_issuer_match and require_audience_match
toggles are inert: two requests differing only in those toggle values
produce the same result. -/
theorem c10_issuer_audience_toggles_inert_on_json (parse : ClaimsParser)
    (jwt_path : JwtPath) (req : UserInfoRequest) (resp : Response)
    (b1 b2 b1' b2' : Bool)
    (hjson : content_type_has_essence (response_content_type resp) MIME_TYPE_JSON = true) :
    UserInfoRequest.user_info_response parse jwt_path
        ((req.require_issuer_match b1).require_audience_match b2) resp =
      UserInfoRequest.user_info_response parse jwt_path
        ((req.require_issuer_match b1').require_audience_match b2') resp := by
  simp [UserInfoRequest.user_info_response, UserInfoRequest.require_issuer_match,
    UserInfoRequest.require_audience_match, UserInfoVerifier.require_issuer_match,
    UserInfoVerifier.require_audience_match, hjson]

/-- Witness for C10 at a concrete JSON response and opposite toggle values. -/
theorem c10_issuer_audience_toggles_inert_on_json_witness :
    UserInfoRequest.user_info_response (fun _ => .error "p") (fun _ _ => .error (.Other "j"))
        (UserInfoRequest.require_audience_match
          (UserInfoRequest.require_issuer_match
            ⟨"url", ⟨"tok"⟩, false, ⟨some "s", false, false⟩⟩ true) true)
        ⟨200, some ["application/json"], ⟨[5], true⟩⟩ =
      UserInfoRequest.user_info_response (fun _ => .error "p") (fun _ _ => .error (.Other "j"))
        (UserInfoRequest.require_audience_match
          (UserInfoRequest.require_issuer_match
            ⟨"url", ⟨"tok"⟩, false, ⟨some "s", false, false⟩⟩ false) false)
        ⟨200, some ["application/json"], ⟨[5], true⟩⟩ :=
  c10_issuer_audience_toggles_inert_on_json (fun _ => .error "p")
    (fun _ _ => .error (.Other "j")) ⟨"url", ⟨"tok"⟩, false, ⟨some "s", false, false⟩⟩
    ⟨200, some ["application/json"], ⟨[5], true⟩⟩ true true false false (by decide)

/-- C6: the aud claim always serializes as a JSON array, also when it holds
exactly one audience, and deserialization accepts either a single string or
an array of strings. -/
theorem c6_aud_array_roundtrip (a : Audience) (xs : List Audience) :
    serialize_aud (some xs) = some (.arr (xs.map .str)) ∧
    serialize_aud (some [a]) = some (.arr [.str a]) ∧
    deserialize_string_or_vec_opt (.str a) = .ok (some [a]) ∧
    ∀ l : List Audience,
      deserialize_string_or_vec_opt (.arr (l.map .str)) = .ok (some l) := by
  refine ⟨rfl, rfl, rfl, fun l => ?_⟩
  simp [deserialize_string_or_vec_opt, aud_entries_map_str l]

end OpenIDConnect
